import Mathlib

/-!
Shallow embedding of `src/server.js` (Phoenix9ine/Add-Users): the single
Express endpoint `POST /create-staff`.

External collaborators (the Supabase datastore and the identity provider) are
modelled as an oracle supplied per run; each remote call either throws
(`Except.error`, caught by the handler's outer try/catch, src line 122) or
returns a `{ data, error }` pair as the supabase-js client does.  The handler
is a pure function from the oracle and the request body to the HTTP response
together with the ordered list of remote operations it issued, so that
"collaborator X was never invoked" claims are statements about that list.
-/

/-- JS truthiness of a possibly-absent string: `undefined` / `null` (here
`none`) and the empty string are falsy, every other string is truthy. -/
def truthy : Option String → Bool
  | none => false
  | some s => !s.isEmpty

/-- A thrown JS value as seen by the catch block at src line 122:
`err?.message ?? String(err)`.  `message` may be absent; `asString` is what
`String(err)` would produce. -/
structure JsError where
  message : Option String
  asString : String
  deriving DecidableEq, Repr

/-- A supabase `{ error }` object: the code only ever reads `.message ?? <the
object itself>`, and `message` may be null. -/
structure SbError where
  message : Option String
  deriving DecidableEq, Repr

/-- The columns the admin check selects at src line 50:
`select("id, hotel_id, role")`; `hotel_id` is nullable. -/
structure AdminProfile where
  id : String
  hotel_id : Option String
  role : String
  deriving DecidableEq, Repr

/-- Result of `.from("profiles").select(...).eq("email", admin_email)
.maybeSingle()` (src lines 48-52): `data` is the matched row or null, `error`
a database error or null. -/
structure LookupResult where
  data : Option AdminProfile
  error : Option SbError
  deriving DecidableEq, Repr

/-- The `user` object inside the identity provider's reply; its `id` may be
absent (the code defends against that at src line 82). -/
structure AuthUser where
  id : Option String
  deriving DecidableEq, Repr

/-- The `data` part of the identity provider's reply: may lack `user`. -/
structure AuthData where
  user : Option AuthUser
  deriving DecidableEq, Repr

/-- Result of `adminSupabase.auth.admin.createUser(...)` (src line 71). -/
structure CreateUserResult where
  data : Option AuthData
  error : Option SbError
  deriving DecidableEq, Repr

/-- Result of the profile insert (src lines 90-101); with
`returning: "minimal"` only the error field is consumed. -/
structure InsertResult where
  error : Option SbError
  deriving DecidableEq, Repr

/-- The row inserted into `profiles` at src lines 92-98. -/
structure ProfileRow where
  id : String
  email : String
  role : String
  full_name : Option String
  hotel_id : Option String
  deriving DecidableEq, Repr

/-- The remote operations the collaborators offer.  The handler only ever
issues the first three; `deleteUser`, `updateProfile` and `deleteProfile`
exist in the model so that "no rollback / no update / no delete is ever
issued" is a real statement about traces rather than true by type. -/
inductive RemoteOp where
  | lookupAdmin (admin_email : String)
  | createUser (email : String)
  | insertProfile (row : ProfileRow)
  | deleteUser (id : String)
  | updateProfile (id : String)
  | deleteProfile (id : String)
  deriving DecidableEq, Repr

/-- The per-run behaviour of the two external collaborators.  `Except.error`
models the call throwing (network failure etc.); `Except.ok` models a
completed call returning a supabase-style `{ data, error }` value. -/
structure Collaborators where
  lookupAdmin : String → Except JsError LookupResult
  createUser : String → Except JsError CreateUserResult
  insertProfile : ProfileRow → Except JsError InsertResult

/-- A value placed in a response's `detail` field: either a plain string
(an error message), a whole error object (when `.message` was null), or the
raw auth payload (src line 84, `detail: authData ?? null`). -/
inductive Detail where
  | str (s : String)
  | errObj (e : SbError)
  | payload (a : Option AuthData)
  deriving DecidableEq, Repr

/-- `e.message ?? e` as used at src lines 56, 78 and 111. -/
def sbDetail (e : SbError) : Detail :=
  match e.message with
  | some m => Detail.str m
  | none => Detail.errObj e

/-- A JSON response: the HTTP status plus every field any branch of the
handler can set; `none` means the field is absent from the body.  The
`hotel_id` field, when present, may itself hold null. -/
structure Response where
  status : Nat
  success : Option Bool := none
  error : Option String := none
  detail : Option Detail := none
  auth_user_id : Option String := none
  user_id : Option String := none
  hotel_id : Option (Option String) := none
  message : Option String := none
  deriving DecidableEq, Repr

/-- The catch block at src lines 122-125:
`res.status(500).json({ error: "Server error", detail: err?.message ?? String(err) })`. -/
def catchResponse (e : JsError) : Response :=
  { status := 500, error := some "Server error",
    detail := some (Detail.str (e.message.getD e.asString)) }

/-- The defensive check at src line 82,
`!authData || !authData.user || !authData.user.id`, read positively: the
extracted user id when every link is present and the id string is truthy. -/
def authUserId : Option AuthData → Option String
  | none => none
  | some a =>
    match a.user with
    | none => none
    | some u =>
      match u.id with
      | none => none
      | some i => if i.isEmpty then none else some i

/-- The request body.  The destructuring at src line 33 reads exactly
`admin_email`, `full_name`, `email`, `role`; the `hotel_id` field is carried
here to state that a caller-supplied tenant id is ignored. -/
structure Body where
  admin_email : Option String := none
  full_name : Option String := none
  email : Option String := none
  role : Option String := none
  hotel_id : Option String := none
  deriving DecidableEq, Repr

/-- Src lines 70-121: the pipeline after the admin check succeeded, with the
admin's `hotel_id` (already `?? null`, src line 68) in hand. -/
def afterAuthz (C : Collaborators) (admin_email : String) (full_name : Option String)
    (email role : String) (hotel_id : Option String) : Response × List RemoteOp :=
  match C.createUser email with
  | Except.error e =>
    (catchResponse e, [RemoteOp.lookupAdmin admin_email, RemoteOp.createUser email])
  | Except.ok cr =>
    match cr.error with
    | some authError =>
      ({ status := 400, error := some "Failed to create auth user",
         detail := some (sbDetail authError) },
       [RemoteOp.lookupAdmin admin_email, RemoteOp.createUser email])
    | none =>
      match authUserId cr.data with
      | none =>
        ({ status := 500, error := some "Auth user creation returned invalid response",
           detail := some (Detail.payload cr.data) },
         [RemoteOp.lookupAdmin admin_email, RemoteOp.createUser email])
      | some newUserId =>
        match C.insertProfile
            { id := newUserId, email := email, role := role,
              full_name := full_name, hotel_id := hotel_id } with
        | Except.error e =>
          (catchResponse e,
           [RemoteOp.lookupAdmin admin_email, RemoteOp.createUser email,
            RemoteOp.insertProfile
              { id := newUserId, email := email, role := role,
                full_name := full_name, hotel_id := hotel_id }])
        | Except.ok ir =>
          match ir.error with
          | some profileInsertError =>
            ({ status := 500,
               error := some "Failed to insert profile row after creating auth user",
               auth_user_id := some newUserId,
               detail := some (sbDetail profileInsertError) },
             [RemoteOp.lookupAdmin admin_email, RemoteOp.createUser email,
              RemoteOp.insertProfile
                { id := newUserId, email := email, role := role,
                  full_name := full_name, hotel_id := hotel_id }])
          | none =>
            ({ status := 200, success := some true, user_id := some newUserId,
               hotel_id := some hotel_id,
               message := some "Staff created (invite sent)." },
             [RemoteOp.lookupAdmin admin_email, RemoteOp.createUser email,
              RemoteOp.insertProfile
                { id := newUserId, email := email, role := role,
                  full_name := full_name, hotel_id := hotel_id }])

/-- Src lines 46-68: the admin check and the handoff to the rest of the
pipeline. -/
def afterValidation (C : Collaborators) (admin_email : String) (full_name : Option String)
    (email role : String) : Response × List RemoteOp :=
  match C.lookupAdmin admin_email with
  | Except.error e => (catchResponse e, [RemoteOp.lookupAdmin admin_email])
  | Except.ok lr =>
    match lr.error with
    | some adminError =>
      ({ status := 500, error := some "Error verifying admin (db)",
         detail := some (sbDetail adminError) },
       [RemoteOp.lookupAdmin admin_email])
    | none =>
      match lr.data with
      | none =>
        ({ status := 403, error := some "Forbidden: Admin profile not found" },
         [RemoteOp.lookupAdmin admin_email])
      | some adminData =>
        if adminData.role != "admin" && adminData.role != "super_admin" then
          ({ status := 403, error := some "Forbidden: Not an admin" },
           [RemoteOp.lookupAdmin admin_email])
        else
          afterAuthz C admin_email full_name email role adminData.hotel_id

/-- Src lines 33-44: the destructured fields and the three presence checks
(`!admin_email`, `!email`, `!role`, each returning 400).  After a field
passes its truthiness check it is a nonempty string, so `getD ""` is exact. -/
def createStaffCore (C : Collaborators) (admin_email full_name email role : Option String) :
    Response × List RemoteOp :=
  if truthy admin_email = false then
    ({ status := 400, error := some "admin_email is required" }, [])
  else if truthy email = false then
    ({ status := 400, error := some "staff email is required" }, [])
  else if truthy role = false then
    ({ status := 400, error := some "role is required (e.g. 'staff')" }, [])
  else
    afterValidation C (admin_email.getD "") full_name (email.getD "") (role.getD "")

/-- The whole `POST /create-staff` handler, src lines 30-126: `req.body ?? {}`
then the destructuring at line 33, which reads only `admin_email`,
`full_name`, `email` and `role`. -/
def handleCreateStaff (C : Collaborators) (reqBody : Option Body) :
    Response × List RemoteOp :=
  createStaffCore C (reqBody.getD {}).admin_email (reqBody.getD {}).full_name
    (reqBody.getD {}).email (reqBody.getD {}).role

/-- The two required configuration values (src lines 13-14). -/
structure Env where
  SUPABASE_URL : Option String
  SUPABASE_SERVICE_ROLE_KEY : Option String
  deriving DecidableEq, Repr

/-- Src lines 16-19: the startup check only logs when a variable is missing
(env vars are absent or strings, and an empty string is falsy too); no step
of the startup path raises, the process continues to serve requests.  The
external client constructor is part of the collaborator, outside src. -/
def startupLogs (env : Env) : List String :=
  if truthy env.SUPABASE_URL = false || truthy env.SUPABASE_SERVICE_ROLE_KEY = false then
    ["Missing SUPABASE_URL or SUPABASE_SERVICE_ROLE_KEY environment variables."]
  else []

/-- True of the operations the handler never issues: the identity rollback
and any datastore update or delete. -/
def isMutation : RemoteOp → Bool
  | RemoteOp.deleteUser _ => true
  | RemoteOp.updateProfile _ => true
  | RemoteOp.deleteProfile _ => true
  | _ => false

/-- True exactly of profile-insert operations. -/
def isInsert : RemoteOp → Bool
  | RemoteOp.insertProfile _ => true
  | _ => false

/-- A concrete collaborator for evaluating theorems on closed inputs: the
lookup knows the admin "admin@x.com" (role admin, tenant "H1"), identity
creation yields id "u-456", and the insert succeeds. -/
def happyClient : Collaborators where
  lookupAdmin s :=
    if s = "admin@x.com" then
      Except.ok { data := some { id := "a-1", hotel_id := some "H1", role := "admin" },
                  error := none }
    else
      Except.ok { data := none, error := none }
  createUser _ :=
    Except.ok { data := some { user := some { id := some "u-456" } }, error := none }
  insertProfile _ := Except.ok { error := none }

/-- A collaborator whose every remote call throws, as a client constructed
without its URL and credential behaves: each call fails at the network layer. -/
def failingClient : Collaborators where
  lookupAdmin _ :=
    Except.error { message := some "fetch failed", asString := "TypeError: fetch failed" }
  createUser _ :=
    Except.error { message := some "fetch failed", asString := "TypeError: fetch failed" }
  insertProfile _ :=
    Except.error { message := some "fetch failed", asString := "TypeError: fetch failed" }

/-- Like `happyClient` but the profile found for "staff@x.com" has role
"staff": an unprivileged caller. -/
def notAdminClient : Collaborators where
  lookupAdmin s :=
    if s = "staff@x.com" then
      Except.ok { data := some { id := "s-1", hotel_id := some "H1", role := "staff" },
                  error := none }
    else
      Except.ok { data := none, error := none }
  createUser _ :=
    Except.ok { data := some { user := some { id := some "u-456" } }, error := none }
  insertProfile _ := Except.ok { error := none }

/-- Like `happyClient` but the identity provider rejects the creation with a
duplicate-email message. -/
def rejectClient : Collaborators where
  lookupAdmin s :=
    if s = "admin@x.com" then
      Except.ok { data := some { id := "a-1", hotel_id := some "H1", role := "admin" },
                  error := none }
    else
      Except.ok { data := none, error := none }
  createUser _ :=
    Except.ok { data := none, error := some { message := some "User already registered" } }
  insertProfile _ := Except.ok { error := none }

/-- Like `happyClient` but identity creation reports success with an empty
payload: no user object at all. -/
def badShapeClient : Collaborators where
  lookupAdmin s :=
    if s = "admin@x.com" then
      Except.ok { data := some { id := "a-1", hotel_id := some "H1", role := "admin" },
                  error := none }
    else
      Except.ok { data := none, error := none }
  createUser _ := Except.ok { data := none, error := none }
  insertProfile _ := Except.ok { error := none }

/-- Like `happyClient` but identity creation returns id "u-123" and the
profile insert then fails: the orphaned-identity scenario. -/
def orphanClient : Collaborators where
  lookupAdmin s :=
    if s = "admin@x.com" then
      Except.ok { data := some { id := "a-1", hotel_id := some "H1", role := "admin" },
                  error := none }
    else
      Except.ok { data := none, error := none }
  createUser _ :=
    Except.ok { data := some { user := some { id := some "u-123" } }, error := none }
  insertProfile _ :=
    Except.ok { error := some { message := some "insert violates foreign key constraint" } }

/-- A fully populated request body from the spec's success scenario, with an
extra caller-supplied hotel_id that must be ignored. -/
def janeBody : Body :=
  { admin_email := some "admin@x.com", full_name := some "Jane",
    email := some "new@x.com", role := some "staff", hotel_id := some "H-EVIL" }

/-- A body whose admin_email is missing entirely. -/
def noAdminBody : Body :=
  { email := some "new@x.com", role := some "staff" }

/-- A body whose admin_email is present but the empty string. -/
def emptyAdminBody : Body :=
  { admin_email := some "", email := some "new@x.com", role := some "staff" }

/-- The admin profile the concrete clients return for "admin@x.com". -/
def adminP : AdminProfile := { id := "a-1", hotel_id := some "H1", role := "admin" }

/-- The lookup result the concrete clients return for "admin@x.com". -/
def adminLr : LookupResult := { data := some adminP, error := none }

/-- The staff-role profile `notAdminClient` returns for "staff@x.com". -/
def staffP : AdminProfile := { id := "s-1", hotel_id := some "H1", role := "staff" }

/-- The lookup result `notAdminClient` returns for "staff@x.com". -/
def staffLr : LookupResult := { data := some staffP, error := none }

/-- A body naming the unprivileged caller. -/
def staffBody : Body :=
  { admin_email := some "staff@x.com", email := some "new@x.com", role := some "staff" }

/-- The duplicate-email rejection `rejectClient` returns. -/
def dupErr : SbError := { message := some "User already registered" }

/-- The create-user result of `rejectClient`. -/
def rejectCr : CreateUserResult := { data := none, error := some dupErr }

/-- The create-user result of `happyClient`: id "u-456". -/
def okCr : CreateUserResult :=
  { data := some { user := some { id := some "u-456" } }, error := none }

/-- The create-user result of `orphanClient`: id "u-123". -/
def u123Cr : CreateUserResult :=
  { data := some { user := some { id := some "u-123" } }, error := none }

/-- The create-user result of `badShapeClient`: success with no user. -/
def badCr : CreateUserResult := { data := none, error := none }

/-- The error `orphanClient` returns from the profile insert. -/
def fkErr : SbError := { message := some "insert violates foreign key constraint" }

/-- The insert result of `orphanClient`. -/
def orphanIr : InsertResult := { error := some fkErr }

/-- The insert result of `happyClient`. -/
def okIr : InsertResult := { error := none }

/-- The thrown error of `failingClient`. -/
def fetchErr : JsError :=
  { message := some "fetch failed", asString := "TypeError: fetch failed" }

/-- The profile row the handler builds at src lines 92-98 for created id u,
request body b and admin profile p. -/
def rowFor (u : String) (b : Body) (p : AdminProfile) : ProfileRow :=
  { id := u, email := b.email.getD "", role := b.role.getD "",
    full_name := b.full_name, hotel_id := p.hotel_id }

/-- Every `insertProfile` operation issued after authorization carries the
admin's hotel_id and the request's fields, and its id is the one the identity
provider returned for the request's email. -/
theorem afterAuthz_insert_mem (C : Collaborators) (ae : String) (fn : Option String)
    (em ro : String) (hid : Option String) (row : ProfileRow)
    (hmem : RemoteOp.insertProfile row ∈ (afterAuthz C ae fn em ro hid).2) :
    row = { id := row.id, email := em, role := ro, full_name := fn, hotel_id := hid } ∧
    ∃ cr, C.createUser em = Except.ok cr ∧ cr.error = none ∧
      authUserId cr.data = some row.id := by
  unfold afterAuthz at hmem
  split at hmem
  · simp at hmem
  · rename_i cr hcu
    split at hmem
    · simp at hmem
    · rename_i hcrerr
      split at hmem
      · simp at hmem
      · rename_i newUserId hnew
        have hrow : row =
            { id := newUserId, email := em, role := ro, full_name := fn, hotel_id := hid } := by
          split at hmem
          · simp at hmem; exact hmem
          · split at hmem
            · simp at hmem; exact hmem
            · simp at hmem; exact hmem
        refine ⟨?_, cr, hcu, hcrerr, ?_⟩
        · rw [hrow]
        · rw [hrow]; exact hnew

/-- The trace issued after authorization is the lookup and the identity
creation, possibly followed by a single profile insert. -/
theorem afterAuthz_ops (C : Collaborators) (ae : String) (fn : Option String)
    (em ro : String) (hid : Option String) :
    (afterAuthz C ae fn em ro hid).2 =
      [RemoteOp.lookupAdmin ae, RemoteOp.createUser em] ∨
    ∃ row, (afterAuthz C ae fn em ro hid).2 =
      [RemoteOp.lookupAdmin ae, RemoteOp.createUser em, RemoteOp.insertProfile row] := by
  unfold afterAuthz
  split
  · exact Or.inl rfl
  · split
    · exact Or.inl rfl
    · split
      · exact Or.inl rfl
      · rename_i newUserId _
        split
        · exact Or.inr ⟨_, rfl⟩
        · split
          · exact Or.inr ⟨_, rfl⟩
          · exact Or.inr ⟨_, rfl⟩

/-- A profile insert can only appear in the trace when the admin lookup
completed, matched a profile, and the row copies that profile's hotel_id. -/
theorem afterValidation_insert_mem (C : Collaborators) (ae : String)
    (fn : Option String) (em ro : String) (row : ProfileRow)
    (hmem : RemoteOp.insertProfile row ∈ (afterValidation C ae fn em ro).2) :
    ∃ lr p, C.lookupAdmin ae = Except.ok lr ∧ lr.error = none ∧ lr.data = some p ∧
      row = { id := row.id, email := em, role := ro, full_name := fn,
              hotel_id := p.hotel_id } ∧
      ∃ cr, C.createUser em = Except.ok cr ∧ cr.error = none ∧
        authUserId cr.data = some row.id := by
  unfold afterValidation at hmem
  split at hmem
  · simp at hmem
  · rename_i lr hlk
    split at hmem
    · simp at hmem
    · rename_i herr
      split at hmem
      · simp at hmem
      · rename_i p hdata
        split at hmem
        · simp at hmem
        · exact ⟨lr, p, hlk, herr, hdata, afterAuthz_insert_mem C ae fn em ro _ row hmem⟩

/-- The trace of the post-validation pipeline: the lookup alone, or the
lookup and the identity creation, possibly followed by one insert. -/
theorem afterValidation_ops (C : Collaborators) (ae : String) (fn : Option String)
    (em ro : String) :
    (afterValidation C ae fn em ro).2 = [RemoteOp.lookupAdmin ae] ∨
    (afterValidation C ae fn em ro).2 =
      [RemoteOp.lookupAdmin ae, RemoteOp.createUser em] ∨
    ∃ row, (afterValidation C ae fn em ro).2 =
      [RemoteOp.lookupAdmin ae, RemoteOp.createUser em, RemoteOp.insertProfile row] := by
  unfold afterValidation
  split
  · exact Or.inl rfl
  · split
    · exact Or.inl rfl
    · split
      · exact Or.inl rfl
      · split
        · exact Or.inl rfl
        · exact Or.inr (afterAuthz_ops C ae fn em ro _)

/-- A 200 response only arises from the full success branch: the lookup
matched a profile and the response's hotel_id field holds that profile's
hotel_id. -/
theorem afterValidation_200 (C : Collaborators) (ae : String) (fn : Option String)
    (em ro : String)
    (h200 : (afterValidation C ae fn em ro).1.status = 200) :
    ∃ lr p, C.lookupAdmin ae = Except.ok lr ∧ lr.error = none ∧ lr.data = some p ∧
      (afterValidation C ae fn em ro).1.hotel_id = some p.hotel_id := by
  unfold afterValidation at h200 ⊢
  split at h200
  · simp [catchResponse] at h200
  · rename_i lr hlk
    split at h200
    · simp at h200
    · rename_i herr
      split at h200
      · simp at h200
      · rename_i p hdata
        split at h200
        · simp at h200
        · refine ⟨lr, p, hlk, herr, hdata, ?_⟩
          rename_i hrole
          rw [if_neg hrole]
          unfold afterAuthz at h200 ⊢
          split at h200
          · simp [catchResponse] at h200
          · split at h200
            · simp at h200
            · split at h200
              · simp at h200
              · split at h200
                · simp [catchResponse] at h200
                · split at h200
                  · simp at h200
                  · rfl

/-- When any of the three required fields is falsy, the handler answers 400
with an error message and performs no remote call. -/
theorem createStaffCore_validation_fails (C : Collaborators)
    (ae fn em ro : Option String)
    (h : truthy ae = false ∨ truthy em = false ∨ truthy ro = false) :
    (createStaffCore C ae fn em ro).1.status = 400 ∧
    (createStaffCore C ae fn em ro).1.error.isSome = true ∧
    (createStaffCore C ae fn em ro).2 = [] := by
  unfold createStaffCore
  split
  · exact ⟨rfl, rfl, rfl⟩
  · split
    · exact ⟨rfl, rfl, rfl⟩
    · split
      · exact ⟨rfl, rfl, rfl⟩
      · rename_i h1 h2 h3
        rcases h with h | h | h <;> simp_all

/-- The possible shapes of a full run's trace: nothing, the lookup alone,
the lookup and the identity creation, or those followed by one insert. -/
theorem handleCreateStaff_ops (C : Collaborators) (reqBody : Option Body) :
    (handleCreateStaff C reqBody).2 = [] ∨
    (∃ ae, (handleCreateStaff C reqBody).2 = [RemoteOp.lookupAdmin ae]) ∨
    (∃ ae em, (handleCreateStaff C reqBody).2 =
      [RemoteOp.lookupAdmin ae, RemoteOp.createUser em]) ∨
    (∃ ae em row, (handleCreateStaff C reqBody).2 =
      [RemoteOp.lookupAdmin ae, RemoteOp.createUser em, RemoteOp.insertProfile row]) := by
  unfold handleCreateStaff createStaffCore
  split
  · exact Or.inl rfl
  · split
    · exact Or.inl rfl
    · split
      · exact Or.inl rfl
      · rcases afterValidation_ops C ((reqBody.getD {}).admin_email.getD "")
          (reqBody.getD {}).full_name ((reqBody.getD {}).email.getD "")
          ((reqBody.getD {}).role.getD "") with h | h | ⟨row, h⟩
        · exact Or.inr (Or.inl ⟨_, h⟩)
        · exact Or.inr (Or.inr (Or.inl ⟨_, _, h⟩))
        · exact Or.inr (Or.inr (Or.inr ⟨_, _, row, h⟩))

/-- C2: for every request in which at least one of admin_email, email or role
is missing from the body, the handler returns HTTP 400 with an error message,
and no remote operation (admin-profile lookup, identity creation or profile
insert) is invoked. -/
theorem create_staff_missing_field_400 (C : Collaborators) (b : Body)
    (h : b.admin_email = none ∨ b.email = none ∨ b.role = none) :
    (handleCreateStaff C (some b)).1.status = 400 ∧
    (handleCreateStaff C (some b)).1.error.isSome = true ∧
    (handleCreateStaff C (some b)).2 = [] := by
  have hfalsy : truthy b.admin_email = false ∨ truthy b.email = false ∨
      truthy b.role = false := by
    rcases h with h | h | h
    · exact Or.inl (by rw [h]; rfl)
    · exact Or.inr (Or.inl (by rw [h]; rfl))
    · exact Or.inr (Or.inr (by rw [h]; rfl))
  simpa [handleCreateStaff] using
    createStaffCore_validation_fails C b.admin_email b.full_name b.email b.role hfalsy

/-- Closed witness for C2: a body with no admin_email is answered 400 with an
error message and an empty trace. -/
theorem create_staff_missing_field_400_witness :
    (noAdminBody.admin_email = none ∨ noAdminBody.email = none ∨
      noAdminBody.role = none) ∧
    ((handleCreateStaff happyClient (some noAdminBody)).1.status = 400 ∧
     (handleCreateStaff happyClient (some noAdminBody)).1.error.isSome = true ∧
     (handleCreateStaff happyClient (some noAdminBody)).2 = []) :=
  ⟨Or.inl rfl,
   create_staff_missing_field_400 happyClient noAdminBody (Or.inl rfl)⟩

/-- C10: a request with no body at all, or whose admin_email, email or role
is present but equal to the empty string, is answered 400 with an error
message, no collaborator invoked and nothing thrown: the presence checks are
falsiness checks, and a missing body defaults to the empty object. -/
theorem create_staff_empty_field_400 (C : Collaborators) (reqBody : Option Body)
    (h : reqBody = none ∨ ∃ b, reqBody = some b ∧
      (b.admin_email = some "" ∨ b.email = some "" ∨ b.role = some "")) :
    (handleCreateStaff C reqBody).1.status = 400 ∧
    (handleCreateStaff C reqBody).1.error.isSome = true ∧
    (handleCreateStaff C reqBody).2 = [] := by
  rcases h with h | ⟨b, hb, h⟩
  · subst h
    simpa [handleCreateStaff] using
      createStaffCore_validation_fails C none none none none (Or.inl rfl)
  · subst hb
    have hfalsy : truthy b.admin_email = false ∨ truthy b.email = false ∨
        truthy b.role = false := by
      rcases h with h | h | h
      · exact Or.inl (by rw [h]; rfl)
      · exact Or.inr (Or.inl (by rw [h]; rfl))
      · exact Or.inr (Or.inr (by rw [h]; rfl))
    simpa [handleCreateStaff] using
      createStaffCore_validation_fails C b.admin_email b.full_name b.email b.role hfalsy

/-- Closed witness for C10: an empty-string admin_email is answered 400 with
an empty trace. -/
theorem create_staff_empty_field_400_witness :
    ((some emptyAdminBody : Option Body) = none ∨
      ∃ b, (some emptyAdminBody : Option Body) = some b ∧
        (b.admin_email = some "" ∨ b.email = some "" ∨ b.role = some "")) ∧
    ((handleCreateStaff happyClient (some emptyAdminBody)).1.status = 400 ∧
     (handleCreateStaff happyClient (some emptyAdminBody)).1.error.isSome = true ∧
     (handleCreateStaff happyClient (some emptyAdminBody)).2 = []) :=
  ⟨Or.inr ⟨emptyAdminBody, rfl, Or.inl rfl⟩,
   create_staff_empty_field_400 happyClient (some emptyAdminBody)
     (Or.inr ⟨emptyAdminBody, rfl, Or.inl rfl⟩)⟩

/-- C9: on every run the Admin Profile is only read: the trace never contains
an update, a delete or an identity rollback, it contains at most one profile
insert, and any inserted row is keyed by the id the identity provider just
returned for the request's email. -/
theorem create_staff_write_discipline (C : Collaborators) (reqBody : Option Body) :
    (∀ op ∈ (handleCreateStaff C reqBody).2, isMutation op = false) ∧
    (handleCreateStaff C reqBody).2.countP isInsert ≤ 1 ∧
    (∀ row, RemoteOp.insertProfile row ∈ (handleCreateStaff C reqBody).2 →
      ∃ cr, C.createUser ((reqBody.getD {}).email.getD "") = Except.ok cr ∧
        cr.error = none ∧ authUserId cr.data = some row.id) := by
  refine ⟨?_, ?_, ?_⟩
  · rcases handleCreateStaff_ops C reqBody with h | ⟨ae, h⟩ | ⟨ae, em, h⟩ | ⟨ae, em, row, h⟩ <;>
      rw [h] <;> simp [isMutation]
  · rcases handleCreateStaff_ops C reqBody with h | ⟨ae, h⟩ | ⟨ae, em, h⟩ | ⟨ae, em, row, h⟩ <;>
      rw [h] <;> simp [isInsert]
  · intro row hmem
    unfold handleCreateStaff createStaffCore at hmem
    split at hmem
    · simp at hmem
    · split at hmem
      · simp at hmem
      · split at hmem
        · simp at hmem
        · obtain ⟨lr, p, hlk, herr, hdata, hrow, cr, hcu, hcrerr, hid⟩ :=
            afterValidation_insert_mem C _ _ _ _ row hmem
          exact ⟨cr, hcu, hcrerr, hid⟩

/-- A 200 from the full handler pins the lookup's outcome: it completed,
matched a profile, and the response's hotel_id field carries that profile's
hotel_id. -/
theorem handleCreateStaff_200 (C : Collaborators) (reqBody : Option Body)
    (h200 : (handleCreateStaff C reqBody).1.status = 200) :
    ∃ lr p, C.lookupAdmin ((reqBody.getD {}).admin_email.getD "") = Except.ok lr ∧
      lr.error = none ∧ lr.data = some p ∧
      (handleCreateStaff C reqBody).1.hotel_id = some p.hotel_id := by
  unfold handleCreateStaff createStaffCore at h200
  split at h200
  · simp at h200
  · split at h200
    · simp at h200
    · split at h200
      · simp at h200
      · rename_i h1 h2 h3
        have heq : handleCreateStaff C reqBody =
            afterValidation C ((reqBody.getD {}).admin_email.getD "")
              (reqBody.getD {}).full_name ((reqBody.getD {}).email.getD "")
              ((reqBody.getD {}).role.getD "") := by
          unfold handleCreateStaff createStaffCore
          rw [if_neg h1, if_neg h2, if_neg h3]
        rw [heq]
        exact afterValidation_200 C _ _ _ _ h200

/-- C1: whenever the admin lookup matched a profile, every inserted Staff
Profile row carries that profile's hotel_id, a 200 response reports that
hotel_id, and a hotel_id supplied in the request body cannot influence the
run at all: the run with it equals the run without it. -/
theorem create_staff_tenant_isolation (C : Collaborators) (b : Body)
    (lr : LookupResult) (p : AdminProfile)
    (hlk : C.lookupAdmin (b.admin_email.getD "") = Except.ok lr)
    (herr : lr.error = none) (hdata : lr.data = some p) :
    (∀ row, RemoteOp.insertProfile row ∈ (handleCreateStaff C (some b)).2 →
      row.hotel_id = p.hotel_id) ∧
    ((handleCreateStaff C (some b)).1.status = 200 →
      (handleCreateStaff C (some b)).1.hotel_id = some p.hotel_id) ∧
    (∀ h, handleCreateStaff C (some { b with hotel_id := h }) =
      handleCreateStaff C (some b)) := by
  refine ⟨?_, ?_, fun h => rfl⟩
  · intro row hmem
    unfold handleCreateStaff createStaffCore at hmem
    split at hmem
    · simp at hmem
    · split at hmem
      · simp at hmem
      · split at hmem
        · simp at hmem
        · obtain ⟨lr2, p2, hlk2, herr2, hdata2, hrow, _⟩ :=
            afterValidation_insert_mem C _ _ _ _ row hmem
          simp only [Option.getD_some] at hlk2
          obtain rfl : lr = lr2 := Except.ok.inj (hlk.symm.trans hlk2)
          obtain rfl : p = p2 := Option.some.inj (hdata.symm.trans hdata2)
          rw [hrow]
  · intro h200
    obtain ⟨lr2, p2, hlk2, herr2, hdata2, hres⟩ := handleCreateStaff_200 C (some b) h200
    simp only [Option.getD_some] at hlk2
    obtain rfl : lr = lr2 := Except.ok.inj (hlk.symm.trans hlk2)
    obtain rfl : p = p2 := Option.some.inj (hdata.symm.trans hdata2)
    exact hres

/-- Closed witness for C1: with the concrete happy-path client and the spec's
scenario body (which also smuggles in hotel_id "H-EVIL"), the insert carries
"H1" and the body's hotel_id changes nothing. -/
theorem create_staff_tenant_isolation_witness :
    happyClient.lookupAdmin (janeBody.admin_email.getD "") = Except.ok adminLr ∧
    adminLr.error = none ∧ adminLr.data = some adminP ∧
    ((∀ row, RemoteOp.insertProfile row ∈ (handleCreateStaff happyClient (some janeBody)).2 →
        row.hotel_id = adminP.hotel_id) ∧
     ((handleCreateStaff happyClient (some janeBody)).1.status = 200 →
        (handleCreateStaff happyClient (some janeBody)).1.hotel_id = some adminP.hotel_id) ∧
     (∀ h, handleCreateStaff happyClient (some { janeBody with hotel_id := h }) =
        handleCreateStaff happyClient (some janeBody))) :=
  ⟨rfl, rfl, rfl,
   create_staff_tenant_isolation happyClient janeBody adminLr adminP rfl rfl rfl⟩

/-- C3: with all three fields present, a lookup that completes but matches no
profile, or matches one whose role is neither admin nor super_admin, is
answered HTTP 403 and the trace is the lookup alone: neither the identity
creation nor the profile insert is invoked. -/
theorem create_staff_forbidden_403 (C : Collaborators) (b : Body) (lr : LookupResult)
    (hae : truthy b.admin_email = true) (hem : truthy b.email = true)
    (hro : truthy b.role = true)
    (hlk : C.lookupAdmin (b.admin_email.getD "") = Except.ok lr)
    (herr : lr.error = none)
    (h : lr.data = none ∨
      ∃ p, lr.data = some p ∧ p.role ≠ "admin" ∧ p.role ≠ "super_admin") :
    (handleCreateStaff C (some b)).1.status = 403 ∧
    (handleCreateStaff C (some b)).2 = [RemoteOp.lookupAdmin (b.admin_email.getD "")] := by
  rcases h with hd | ⟨p, hd, hne1, hne2⟩
  · simp [handleCreateStaff, createStaffCore, afterValidation, hae, hem, hro, hlk, herr, hd]
  · have hcond : (p.role != "admin" && p.role != "super_admin") = true := by
      simp [hne1, hne2]
    simp [handleCreateStaff, createStaffCore, afterValidation,
      hae, hem, hro, hlk, herr, hd, hcond]

/-- Closed witness for C3: the concrete client whose profile for
"staff@x.com" has role "staff" yields 403 and a one-element trace. -/
theorem create_staff_forbidden_403_witness :
    truthy staffBody.admin_email = true ∧ truthy staffBody.email = true ∧
    truthy staffBody.role = true ∧
    notAdminClient.lookupAdmin (staffBody.admin_email.getD "") = Except.ok staffLr ∧
    staffLr.error = none ∧
    (staffLr.data = none ∨
      ∃ p, staffLr.data = some p ∧ p.role ≠ "admin" ∧ p.role ≠ "super_admin") ∧
    ((handleCreateStaff notAdminClient (some staffBody)).1.status = 403 ∧
     (handleCreateStaff notAdminClient (some staffBody)).2 =
       [RemoteOp.lookupAdmin (staffBody.admin_email.getD "")]) :=
  ⟨rfl, rfl, rfl, rfl, rfl, Or.inr ⟨staffP, rfl, by decide, by decide⟩,
   create_staff_forbidden_403 notAdminClient staffBody staffLr rfl rfl rfl rfl rfl
     (Or.inr ⟨staffP, rfl, by decide, by decide⟩)⟩

/-- C4: with the caller authorized, a create-user call the provider rejects
is answered HTTP 400 whose detail surfaces the provider's message, and the
profile insert is never invoked. -/
theorem create_staff_provider_rejected_400 (C : Collaborators) (b : Body)
    (lr : LookupResult) (p : AdminProfile) (cr : CreateUserResult)
    (authError : SbError) (m : String)
    (hae : truthy b.admin_email = true) (hem : truthy b.email = true)
    (hro : truthy b.role = true)
    (hlk : C.lookupAdmin (b.admin_email.getD "") = Except.ok lr)
    (herr : lr.error = none) (hdata : lr.data = some p)
    (hrole : p.role = "admin" ∨ p.role = "super_admin")
    (hcu : C.createUser (b.email.getD "") = Except.ok cr)
    (hcrerr : cr.error = some authError) (hm : authError.message = some m) :
    (handleCreateStaff C (some b)).1.status = 400 ∧
    (handleCreateStaff C (some b)).1.detail = some (Detail.str m) ∧
    (handleCreateStaff C (some b)).2 =
      [RemoteOp.lookupAdmin (b.admin_email.getD ""),
       RemoteOp.createUser (b.email.getD "")] := by
  have hcond : (p.role != "admin" && p.role != "super_admin") = false := by
    rcases hrole with h | h <;> simp [h]
  simp [handleCreateStaff, createStaffCore, afterValidation, afterAuthz, sbDetail,
    hae, hem, hro, hlk, herr, hdata, hcond, hcu, hcrerr, hm]

/-- Closed witness for C4: the rejecting client turns the duplicate-email
message into a 400 whose detail is that message, with no insert issued. -/
theorem create_staff_provider_rejected_400_witness :
    truthy janeBody.admin_email = true ∧ truthy janeBody.email = true ∧
    truthy janeBody.role = true ∧
    rejectClient.lookupAdmin (janeBody.admin_email.getD "") = Except.ok adminLr ∧
    adminLr.error = none ∧ adminLr.data = some adminP ∧
    (adminP.role = "admin" ∨ adminP.role = "super_admin") ∧
    rejectClient.createUser (janeBody.email.getD "") = Except.ok rejectCr ∧
    rejectCr.error = some dupErr ∧ dupErr.message = some "User already registered" ∧
    ((handleCreateStaff rejectClient (some janeBody)).1.status = 400 ∧
     (handleCreateStaff rejectClient (some janeBody)).1.detail =
       some (Detail.str "User already registered") ∧
     (handleCreateStaff rejectClient (some janeBody)).2 =
       [RemoteOp.lookupAdmin (janeBody.admin_email.getD ""),
        RemoteOp.createUser (janeBody.email.getD "")]) :=
  ⟨rfl, rfl, rfl, rfl, rfl, rfl, Or.inl rfl, rfl, rfl, rfl,
   create_staff_provider_rejected_400 rejectClient janeBody adminLr adminP rejectCr
     dupErr "User already registered" rfl rfl rfl rfl rfl rfl (Or.inl rfl) rfl rfl rfl⟩

/-- C5: when the identity was created with id u but the profile insert fails,
the handler answers HTTP 500 with auth_user_id = u and a detail field, and
the trace contains no delete or rollback of the created identity (nor any
other mutation): the orphan is surfaced, not cleaned up. -/
theorem create_staff_orphaned_identity_500 (C : Collaborators) (b : Body)
    (lr : LookupResult) (p : AdminProfile) (cr : CreateUserResult)
    (u : String) (ir : InsertResult) (pe : SbError)
    (hae : truthy b.admin_email = true) (hem : truthy b.email = true)
    (hro : truthy b.role = true)
    (hlk : C.lookupAdmin (b.admin_email.getD "") = Except.ok lr)
    (herr : lr.error = none) (hdata : lr.data = some p)
    (hrole : p.role = "admin" ∨ p.role = "super_admin")
    (hcu : C.createUser (b.email.getD "") = Except.ok cr)
    (hcrerr : cr.error = none) (huid : authUserId cr.data = some u)
    (hins : C.insertProfile (rowFor u b p) = Except.ok ir)
    (hie : ir.error = some pe) :
    (handleCreateStaff C (some b)).1.status = 500 ∧
    (handleCreateStaff C (some b)).1.auth_user_id = some u ∧
    (handleCreateStaff C (some b)).1.detail.isSome = true ∧
    (∀ op ∈ (handleCreateStaff C (some b)).2, isMutation op = false) := by
  have hcond : (p.role != "admin" && p.role != "super_admin") = false := by
    rcases hrole with h | h <;> simp [h]
  unfold rowFor at hins
  refine ⟨?_, ?_, ?_, ?_⟩ <;>
    simp [handleCreateStaff, createStaffCore, afterValidation, afterAuthz, isMutation,
      hae, hem, hro, hlk, herr, hdata, hcond, hcu, hcrerr, huid, hins, hie]

/-- Closed witness for C5: the orphan client creates id "u-123", the insert
fails, and the response is a 500 carrying auth_user_id "u-123" with no
rollback in the trace. -/
theorem create_staff_orphaned_identity_500_witness :
    truthy janeBody.admin_email = true ∧ truthy janeBody.email = true ∧
    truthy janeBody.role = true ∧
    orphanClient.lookupAdmin (janeBody.admin_email.getD "") = Except.ok adminLr ∧
    adminLr.error = none ∧ adminLr.data = some adminP ∧
    (adminP.role = "admin" ∨ adminP.role = "super_admin") ∧
    orphanClient.createUser (janeBody.email.getD "") = Except.ok u123Cr ∧
    u123Cr.error = none ∧ authUserId u123Cr.data = some "u-123" ∧
    orphanClient.insertProfile (rowFor "u-123" janeBody adminP) = Except.ok orphanIr ∧
    orphanIr.error = some fkErr ∧
    ((handleCreateStaff orphanClient (some janeBody)).1.status = 500 ∧
     (handleCreateStaff orphanClient (some janeBody)).1.auth_user_id = some "u-123" ∧
     (handleCreateStaff orphanClient (some janeBody)).1.detail.isSome = true ∧
     (∀ op ∈ (handleCreateStaff orphanClient (some janeBody)).2,
        isMutation op = false)) :=
  ⟨rfl, rfl, rfl, rfl, rfl, rfl, Or.inl rfl, rfl, rfl, rfl, rfl, rfl,
   create_staff_orphaned_identity_500 orphanClient janeBody adminLr adminP u123Cr
     "u-123" orphanIr fkErr rfl rfl rfl rfl rfl rfl (Or.inl rfl) rfl rfl rfl rfl rfl⟩

/-- C6: on a fully successful request the inserted row is exactly the
request's fields keyed by the created id and carrying the admin's hotel_id,
and the response is HTTP 200 with success = true, user_id = the created id
and hotel_id = the admin's hotel_id. -/
theorem create_staff_success_200 (C : Collaborators) (b : Body)
    (lr : LookupResult) (p : AdminProfile) (cr : CreateUserResult)
    (u : String) (ir : InsertResult)
    (hae : truthy b.admin_email = true) (hem : truthy b.email = true)
    (hro : truthy b.role = true)
    (hlk : C.lookupAdmin (b.admin_email.getD "") = Except.ok lr)
    (herr : lr.error = none) (hdata : lr.data = some p)
    (hrole : p.role = "admin" ∨ p.role = "super_admin")
    (hcu : C.createUser (b.email.getD "") = Except.ok cr)
    (hcrerr : cr.error = none) (huid : authUserId cr.data = some u)
    (hins : C.insertProfile (rowFor u b p) = Except.ok ir)
    (hie : ir.error = none) :
    (handleCreateStaff C (some b)).1 =
      { status := 200, success := some true, user_id := some u,
        hotel_id := some p.hotel_id,
        message := some "Staff created (invite sent)." } ∧
    (handleCreateStaff C (some b)).2 =
      [RemoteOp.lookupAdmin (b.admin_email.getD ""),
       RemoteOp.createUser (b.email.getD ""),
       RemoteOp.insertProfile (rowFor u b p)] := by
  have hcond : (p.role != "admin" && p.role != "super_admin") = false := by
    rcases hrole with h | h <;> simp [h]
  unfold rowFor at hins
  refine ⟨?_, ?_⟩ <;>
    simp [handleCreateStaff, createStaffCore, afterValidation, afterAuthz,
      rowFor, hae, hem, hro, hlk, herr, hdata, hcond, hcu, hcrerr, huid, hins, hie]

/-- Closed witness for C6: the spec's success scenario evaluated on the
happy client: id "u-456", row carrying "H1", response 200. -/
theorem create_staff_success_200_witness :
    truthy janeBody.admin_email = true ∧ truthy janeBody.email = true ∧
    truthy janeBody.role = true ∧
    happyClient.lookupAdmin (janeBody.admin_email.getD "") = Except.ok adminLr ∧
    adminLr.error = none ∧ adminLr.data = some adminP ∧
    (adminP.role = "admin" ∨ adminP.role = "super_admin") ∧
    happyClient.createUser (janeBody.email.getD "") = Except.ok okCr ∧
    okCr.error = none ∧ authUserId okCr.data = some "u-456" ∧
    happyClient.insertProfile (rowFor "u-456" janeBody adminP) = Except.ok okIr ∧
    okIr.error = none ∧
    ((handleCreateStaff happyClient (some janeBody)).1 =
      { status := 200, success := some true, user_id := some "u-456",
        hotel_id := some adminP.hotel_id,
        message := some "Staff created (invite sent)." } ∧
     (handleCreateStaff happyClient (some janeBody)).2 =
       [RemoteOp.lookupAdmin (janeBody.admin_email.getD ""),
        RemoteOp.createUser (janeBody.email.getD ""),
        RemoteOp.insertProfile (rowFor "u-456" janeBody adminP)]) :=
  ⟨rfl, rfl, rfl, rfl, rfl, rfl, Or.inl rfl, rfl, rfl, rfl, rfl, rfl,
   create_staff_success_200 happyClient janeBody adminLr adminP okCr
     "u-456" okIr rfl rfl rfl rfl rfl rfl (Or.inl rfl) rfl rfl rfl rfl rfl⟩

/-- C8: when the provider reports success but its payload lacks a user id
(no data, no user, or no id field), the handler answers HTTP 500 and the
trace stops at the identity creation: the profile insert is never invoked. -/
theorem create_staff_invalid_provider_500 (C : Collaborators) (b : Body)
    (lr : LookupResult) (p : AdminProfile) (cr : CreateUserResult)
    (hae : truthy b.admin_email = true) (hem : truthy b.email = true)
    (hro : truthy b.role = true)
    (hlk : C.lookupAdmin (b.admin_email.getD "") = Except.ok lr)
    (herr : lr.error = none) (hdata : lr.data = some p)
    (hrole : p.role = "admin" ∨ p.role = "super_admin")
    (hcu : C.createUser (b.email.getD "") = Except.ok cr)
    (hcrerr : cr.error = none)
    (hshape : cr.data = none ∨ (∃ a, cr.data = some a ∧ a.user = none) ∨
      (∃ a v, cr.data = some a ∧ a.user = some v ∧ v.id = none)) :
    (handleCreateStaff C (some b)).1.status = 500 ∧
    (handleCreateStaff C (some b)).2 =
      [RemoteOp.lookupAdmin (b.admin_email.getD ""),
       RemoteOp.createUser (b.email.getD "")] := by
  have hcond : (p.role != "admin" && p.role != "super_admin") = false := by
    rcases hrole with h | h <;> simp [h]
  have huid : authUserId cr.data = none := by
    rcases hshape with h | ⟨a, ha, hu⟩ | ⟨a, v, ha, hu, hi⟩ <;>
      simp [authUserId, *]
  refine ⟨?_, ?_⟩ <;>
    simp [handleCreateStaff, createStaffCore, afterValidation, afterAuthz,
      hae, hem, hro, hlk, herr, hdata, hcond, hcu, hcrerr, huid]

/-- Closed witness for C8: the client whose create-user reply has no user at
all yields a 500 and a two-element trace. -/
theorem create_staff_invalid_provider_500_witness :
    truthy janeBody.admin_email = true ∧ truthy janeBody.email = true ∧
    truthy janeBody.role = true ∧
    badShapeClient.lookupAdmin (janeBody.admin_email.getD "") = Except.ok adminLr ∧
    adminLr.error = none ∧ adminLr.data = some adminP ∧
    (adminP.role = "admin" ∨ adminP.role = "super_admin") ∧
    badShapeClient.createUser (janeBody.email.getD "") = Except.ok badCr ∧
    badCr.error = none ∧
    (badCr.data = none ∨ (∃ a, badCr.data = some a ∧ a.user = none) ∨
      (∃ a v, badCr.data = some a ∧ a.user = some v ∧ v.id = none)) ∧
    ((handleCreateStaff badShapeClient (some janeBody)).1.status = 500 ∧
     (handleCreateStaff badShapeClient (some janeBody)).2 =
       [RemoteOp.lookupAdmin (janeBody.admin_email.getD ""),
        RemoteOp.createUser (janeBody.email.getD "")]) :=
  ⟨rfl, rfl, rfl, rfl, rfl, rfl, Or.inl rfl, rfl, rfl, Or.inl rfl,
   create_staff_invalid_provider_500 badShapeClient janeBody adminLr adminP badCr
     rfl rfl rfl rfl rfl rfl (Or.inl rfl) rfl rfl (Or.inl rfl)⟩

/-- C7 is refuted at a concrete input: with both configuration values absent
the startup path only logs, yet a request with an empty body is answered 400,
not 500, even though every remote call of the credential-less client fails —
the presence validation runs before any client use, so "every request then
fails with HTTP 500" is false. -/
theorem create_staff_misconfig_counterexample :
    startupLogs { SUPABASE_URL := none, SUPABASE_SERVICE_ROLE_KEY := none } =
      ["Missing SUPABASE_URL or SUPABASE_SERVICE_ROLE_KEY environment variables."] ∧
    (handleCreateStaff failingClient (some {})).1.status = 400 ∧
    ¬ (handleCreateStaff failingClient (some {})).1.status = 500 := by
  refine ⟨rfl, rfl, ?_⟩
  intro h
  simp [handleCreateStaff, createStaffCore, truthy] at h

/-- C7 (amended): with a required configuration value absent the startup path
does not crash — it only emits the warning log — and every request that
passes the three presence checks is answered HTTP 500 with an explanatory
detail once the credential-less client's admin lookup fails, whether that
call throws or returns a database error. -/
theorem create_staff_misconfig_500 (env : Env) (C : Collaborators) (b : Body)
    (henv : truthy env.SUPABASE_URL = false ∨
      truthy env.SUPABASE_SERVICE_ROLE_KEY = false)
    (hae : truthy b.admin_email = true) (hem : truthy b.email = true)
    (hro : truthy b.role = true)
    (hfail : (∃ e, C.lookupAdmin (b.admin_email.getD "") = Except.error e) ∨
      (∃ lr se, C.lookupAdmin (b.admin_email.getD "") = Except.ok lr ∧
        lr.error = some se)) :
    startupLogs env =
      ["Missing SUPABASE_URL or SUPABASE_SERVICE_ROLE_KEY environment variables."] ∧
    (handleCreateStaff C (some b)).1.status = 500 ∧
    (handleCreateStaff C (some b)).1.detail.isSome = true := by
  refine ⟨?_, ?_⟩
  · unfold startupLogs
    rcases henv with h | h <;> simp [h]
  · rcases hfail with ⟨e, hlk⟩ | ⟨lr, se, hlk, herr⟩
    · refine ⟨?_, ?_⟩ <;>
        simp [handleCreateStaff, createStaffCore, afterValidation, catchResponse,
          hae, hem, hro, hlk]
    · refine ⟨?_, ?_⟩ <;>
        simp [handleCreateStaff, createStaffCore, afterValidation,
          hae, hem, hro, hlk, herr]

/-- Closed witness for the amended C7: URL absent, the failing client's
lookup throws, a well-formed request gets 500 with a detail. -/
theorem create_staff_misconfig_500_witness :
    (truthy ({ SUPABASE_URL := none, SUPABASE_SERVICE_ROLE_KEY := some "k" } :
        Env).SUPABASE_URL = false ∨
      truthy ({ SUPABASE_URL := none, SUPABASE_SERVICE_ROLE_KEY := some "k"} :
        Env).SUPABASE_SERVICE_ROLE_KEY = false) ∧
    truthy janeBody.admin_email = true ∧ truthy janeBody.email = true ∧
    truthy janeBody.role = true ∧
    ((∃ e, failingClient.lookupAdmin (janeBody.admin_email.getD "") =
        Except.error e) ∨
      (∃ lr se, failingClient.lookupAdmin (janeBody.admin_email.getD "") =
        Except.ok lr ∧ lr.error = some se)) ∧
    (startupLogs { SUPABASE_URL := none, SUPABASE_SERVICE_ROLE_KEY := some "k" } =
      ["Missing SUPABASE_URL or SUPABASE_SERVICE_ROLE_KEY environment variables."] ∧
     (handleCreateStaff failingClient (some janeBody)).1.status = 500 ∧
     (handleCreateStaff failingClient (some janeBody)).1.detail.isSome = true) :=
  ⟨Or.inl rfl, rfl, rfl, rfl, Or.inl ⟨fetchErr, rfl⟩,
   create_staff_misconfig_500 { SUPABASE_URL := none, SUPABASE_SERVICE_ROLE_KEY := some "k" }
     failingClient janeBody (Or.inl rfl) rfl rfl rfl (Or.inl ⟨fetchErr, rfl⟩)⟩
